import Mathlib

/-
Shallow embedding of the slot-filling plan engine in
src/rasa_core/policies/plans.py (classes SimpleForm, PlanComplete).

Python dictionaries are modelled as association lists with first-match
lookup (dictionary keys are unique, so this coincides with dict lookup);
Python None is modelled as Option.none; a raised exception is modelled by
an Option.none / Except.error result of the whole call.
-/

namespace RasaPlans

/-- Leaf of the nested rule specification: a Python dict that may carry a
need list and a lose list.  rules.get on an absent key yields None, so
both fields are Option. -/
structure RuleLeaf where
  need : Option (List String) := none
  lose : Option (List String) := none
deriving DecidableEq

/-- Nested rule specification: slot name, then slot value, then leaf.
Slot values in Python are arbitrary (None included), hence Option String. -/
abbrev RulesSpec := List (String × List (Option String × RuleLeaf))

/-- Compiled rule table: (slot, value) pair mapped to (need, lose). -/
abbrev RuleTable := List ((String × Option String) × (Option (List String) × Option (List String)))

/-- Tracker slot assignment, as returned by tracker.current_slot_values():
every tracked slot with its value, None meaning unfilled. -/
abbrev SlotVals := List (String × Option String)

/-- Per-slot entry of slot_dict; each key of the underlying Python dict may
be absent, hence all fields are Option. -/
structure SlotSpec where
  ask_utt : Option String := none
  follow_up_action : Option String := none
  clarify_utt : Option String := none
deriving DecidableEq

/-- A queue entry.  The chitchat and clarification branches of
next_action_idx append a whole Python list as a single queue element, so
the queue element type must admit nested lists besides plain action
names. -/
inductive QEntry where
  | act : String → QEntry
  | nested : List String → QEntry
deriving DecidableEq

/-- First-match association-list lookup, the model of a Python dict
access. -/
def alookup {α β : Type} [DecidableEq α] : List (α × β) → α → Option β
  | [], _ => none
  | (k, v) :: rest, a => if k = a then some v else alookup rest a

/-- Mutable state of a SimpleForm instance (fields set by __init__). -/
structure SimpleForm where
  name : String
  slot_dict : List (String × SlotSpec)
  required_slots : List String
  current_required : List String
  optional_slots : List String
  exit_dict : List (String × String)
  chitchat_dict : List (String × String)
  finish_action : String
  details_intent : List String
  rules_yaml : Option RulesSpec
  rules : Option RuleTable
  subject : Option String
  last_question : Option String
  queue : List QEntry
deriving DecidableEq

/-- View of the dialogue state tracker consumed per decision call. -/
structure Tracker where
  slots : SlotVals
  latest_intent : String
  latest_action_name : String
deriving DecidableEq

/-- SimpleForm._process_rules: flatten the nested rule specification into
the (slot, value) keyed table; rules.get yields None for an absent need
or lose key. -/
def process_rules : RulesSpec → RuleTable
  | [] => []
  | (slot, values) :: rest =>
      values.map (fun p => ((slot, p.1), (p.2.need, p.2.lose))) ++ process_rules rest

/-- SimpleForm.__init__.  Passing rules = None (the parameter default)
makes _process_rules call None.items(), an AttributeError; the
constructor raises and no instance is produced. -/
def SimpleForm.init (name : String) (slot_dict : List (String × SlotSpec))
    (finish_action : String) (optional_slots : List String)
    (exit_dict chitchat_dict : List (String × String)) (details_intent : List String)
    (rules : Option RulesSpec) (subject : Option String) : Except String SimpleForm :=
  match rules with
  | none => Except.error "AttributeError: NoneType has no attribute items"
  | some r => Except.ok {
      name := name
      slot_dict := slot_dict
      required_slots := slot_dict.map Prod.fst
      current_required := slot_dict.map Prod.fst
      optional_slots := optional_slots
      exit_dict := exit_dict
      chitchat_dict := chitchat_dict
      finish_action := finish_action
      details_intent := details_intent
      rules_yaml := some r
      rules := some (process_rules r)
      subject := subject
      last_question := none
      queue := [] }

/-- Add contribution of one tracker pair: its need list when the pair keys
the table and the list is not None, otherwise nothing. -/
def addsOf (tbl : RuleTable) (p : String × Option String) : List String :=
  match alookup tbl p with
  | some nl => nl.1.getD []
  | none => []

/-- Lose contribution of one tracker pair, analogous to addsOf. -/
def losesOf (tbl : RuleTable) (p : String × Option String) : List String :=
  match alookup tbl p with
  | some nl => nl.2.getD []
  | none => []

/-- The all_add accumulator of SimpleForm._update_requirements. -/
def collect_adds (tbl : RuleTable) : SlotVals → List String
  | [] => []
  | p :: rest => addsOf tbl p ++ collect_adds tbl rest

/-- The all_take accumulator of SimpleForm._update_requirements. -/
def collect_loses (tbl : RuleTable) : SlotVals → List String
  | [] => []
  | p :: rest => losesOf tbl p ++ collect_loses tbl rest

/-- SimpleForm._update_requirements: current_required becomes
list(set(required_slots + all_add) - set(all_take)); set formation is
modelled by dedup, set difference by a filter. -/
def SimpleForm.update_requirements (f : SimpleForm) (slots : SlotVals) : SimpleForm :=
  match f.rules with
  | none => f
  | some tbl =>
      let all_add := collect_adds tbl slots
      let all_take := collect_loses tbl slots
      { f with current_required :=
          ((f.required_slots ++ all_add).dedup).filter (fun s => decide (¬ s ∈ all_take)) }

/-- SimpleForm.check_unfilled_slots: list(set(current_required) -
set(slots with a non-None value)). -/
def SimpleForm.check_unfilled_slots (f : SimpleForm) (slots : SlotVals) : List String :=
  let current_filled := (slots.filter (fun p => decide (¬ p.2 = none))).map Prod.fst
  f.current_required.dedup.filter (fun s => decide (¬ s ∈ current_filled))

/-- SimpleForm._make_question_queue.  The ask action comes from the slot
passed as question; the follow-up check reads slot_dict[self.last_question],
so it is the current last_question whose spec decides the third entry.
Any failing dict access (question or last_question not a key, no ask_utt)
is a KeyError, modelled as none. -/
def SimpleForm.make_question_queue (f : SimpleForm) (question : Option String) :
    Option (List String) := do
  let q ← question
  let qs ← alookup f.slot_dict q
  let ask ← qs.ask_utt
  let lq ← f.last_question
  let ls ← alookup f.slot_dict lq
  match ls.follow_up_action with
  | some fu => pure [ask, "action_listen", fu]
  | none => pure [ask, "action_listen"]

/-- SimpleForm._run_through_queue on a queue known to be non-empty: pop the
front entry and map it through domain.index_for_action.  A nested list
entry makes index_for_action raise a TypeError, modelled as none. -/
def SimpleForm.drain (f : SimpleForm) (dom : String → Nat) : Option (Nat × SimpleForm) :=
  match f.queue with
  | QEntry.act s :: rest => some (dom s, { f with queue := rest })
  | _ => none

/-- Remove the first occurrence of pat, the model of
str.replace(pat, two-quote-empty, 1). -/
def removeFirstOcc (pat : List Char) : List Char → List Char
  | [] => []
  | c :: cs =>
      if pat.isPrefixOf (c :: cs) then List.drop pat.length (c :: cs)
      else c :: removeFirstOcc pat cs

/-- Intent preprocessing of next_action_idx: drop the first occurrence of
the plan marker from the recognized intent name. -/
def stripPlan (s : String) : String :=
  String.mk (removeFirstOcc "plan_".toList s.toList)

/-- Substring test on character lists, the model of the Python in operator
on strings. -/
def hasSubstr : List Char → List Char → Bool
  | _, [] => true
  | [], _ :: _ => false
  | c :: cs, pat => pat.isPrefixOf (c :: cs) || hasSubstr cs pat

/-- SimpleForm.next_action_idx.  dom models domain.index_for_action and
choose models np.random.choice over the unfilled required slots; a raised
exception anywhere in the call is the result none. -/
def SimpleForm.next_action_idx (f : SimpleForm) (t : Tracker) (dom : String → Nat)
    (choose : List String → String) : Option (Nat × SimpleForm) :=
  match f.queue with
  | QEntry.act s :: rest => some (dom s, { f with queue := rest })
  | QEntry.nested _ :: _ => none
  | [] =>
    let intent := stripPlan t.latest_intent
    let f1 := f.update_requirements t.slots
    match alookup f1.exit_dict intent with
    | some a => SimpleForm.drain { f1 with queue := [QEntry.act a] } dom
    | none =>
      if (alookup f1.chitchat_dict intent).isSome
          && ! (f1.chitchat_dict.map Prod.snd).contains t.latest_action_name then
        match alookup f1.chitchat_dict intent, f1.make_question_queue f1.last_question with
        | some a, some qq =>
            SimpleForm.drain { f1 with queue := [QEntry.act a, QEntry.nested qq] } dom
        | _, _ => none
      else if f1.details_intent.contains intent
          && ! hasSubstr t.latest_action_name.toList "utter_explain".toList then
        match f1.last_question.bind (fun lq => (alookup f1.slot_dict lq).bind
                (fun sp => sp.clarify_utt)),
              f1.make_question_queue f1.last_question with
        | some c, some qq =>
            SimpleForm.drain { f1 with queue := [QEntry.act c, QEntry.nested qq] } dom
        | _, _ => none
      else
        let still := f1.check_unfilled_slots t.slots
        if still.isEmpty then
          SimpleForm.drain
            { f1 with queue := [QEntry.act f1.finish_action, QEntry.act "action_listen"] } dom
        else
          let q := choose still
          let f2 := { f1 with last_question := some q }
          match f2.make_question_queue (some q) with
          | some qq => SimpleForm.drain { f2 with queue := qq.map QEntry.act } dom
          | none => none

/-- Events produced by the lifecycle actions. -/
inductive PlanEvent where
  | endPlan
  | slotSetBool : String → Bool → PlanEvent
deriving DecidableEq

/-- PlanComplete.run: read the unfilled slots of the active plan and emit
the deactivation events; complete is true exactly when no slot of the
stored current_required is unfilled. -/
def PlanComplete_run (f : SimpleForm) (slots : SlotVals) : List PlanEvent :=
  let complete := (f.check_unfilled_slots slots).isEmpty
  [PlanEvent.endPlan, PlanEvent.slotSetBool "active_plan" false,
   PlanEvent.slotSetBool "plan_complete" complete]

/-- Requirement recomputation as the specification words it: only pairs
currently present with a non-empty value contribute their need and lose
lists; removal is applied last.  Written from the specification text for
comparison with SimpleForm.update_requirements. -/
@[reducible] def spec_recompute (base : List String) (tbl : RuleTable) (slots : SlotVals)
    (s : String) : Prop :=
  (s ∈ base ∨ ∃ p ∈ slots, ¬ p.2 = none ∧ s ∈ addsOf tbl p)
  ∧ ¬ ∃ p ∈ slots, ¬ p.2 = none ∧ s ∈ losesOf tbl p

/-- Compiled rule table of a construction result, none when construction
failed. -/
def rulesOf : Except String SimpleForm → Option RuleTable
  | Except.ok f => f.rules
  | Except.error _ => none

/-- Extract a constructed instance, defaulting to baseForm on failure;
used only to state evaluation theorems about successful constructions. -/
def formOf (e : Except String SimpleForm) : SimpleForm :=
  match e with
  | Except.ok f => f
  | Except.error _ => {
      name := "", slot_dict := [], required_slots := [], current_required := [],
      optional_slots := [], exit_dict := [], chitchat_dict := [], finish_action := "",
      details_intent := [], rules_yaml := none, rules := none, subject := none,
      last_question := none, queue := [] }

/-- Returned action index of a decision call, if any. -/
def retIdx (r : Option (Nat × SimpleForm)) : Option Nat := r.map Prod.fst

/-- Queue left behind by a decision call, if it returned. -/
def retQueue (r : Option (Nat × SimpleForm)) : Option (List QEntry) :=
  r.map (fun p => p.2.queue)

/-- last_question left behind by a decision call, if it returned. -/
def retLastQ (r : Option (Nat × SimpleForm)) : Option (Option String) :=
  r.map (fun p => p.2.last_question)

/-- An empty form used as the base of the concrete fixtures. -/
def baseForm : SimpleForm := {
  name := "form", slot_dict := [], required_slots := [], current_required := [],
  optional_slots := [], exit_dict := [], chitchat_dict := [], finish_action := "finish",
  details_intent := [], rules_yaml := some [], rules := some [], subject := none,
  last_question := none, queue := [] }

/-- Concrete domain index function for fixtures: the action name length. -/
def domLen : String → Nat := String.length

/-- Concrete slot-selection policy for fixtures: the first candidate. -/
def chooseHead : List String → String := fun l => l.headD ""

/-- Rule table of the C1 fixture: the pair (a, None) keys the table. -/
def rtable1 : RuleTable := [(("a", none), (some ["b"], none))]

/-- C1 fixture: base required slot a, a rule keyed by the empty value. -/
def form1 : SimpleForm :=
  { baseForm with
    required_slots := ["a"], current_required := ["a"],
    rules := some rtable1 }

/-- C1 fixture tracker values: slot a is present but unfilled. -/
def slots1 : SlotVals := [("a", none)]

/-- C2 fixture: a form whose queue holds one plain action entry. -/
def form2 : SimpleForm :=
  { baseForm with
    current_required := ["a"], last_question := some "a",
    queue := [QEntry.act "utter_go"] }

/-- C2 fixture tracker. -/
def track2 : Tracker :=
  { slots := [("a", some "x")], latest_intent := "anything",
    latest_action_name := "action_listen" }

/-- C3 fixture: the intent bye is simultaneously an exit intent, a chitchat
intent and a clarification intent. -/
def form3 : SimpleForm :=
  { baseForm with
    slot_dict := [("a", { ask_utt := some "utter_ask_a" })],
    required_slots := ["a"], current_required := ["a"],
    exit_dict := [("bye", "utter_goodbye")],
    chitchat_dict := [("bye", "utter_chat")],
    details_intent := ["bye"],
    last_question := some "a" }

/-- C3 fixture tracker: the raw intent carries the plan marker. -/
def track3 : Tracker :=
  { slots := [("a", none)], latest_intent := "plan_bye",
    latest_action_name := "action_listen" }

/-- C4 fixture: last_question slot a declares a follow-up action. -/
def form4 : SimpleForm :=
  { baseForm with
    slot_dict := [("a", { ask_utt := some "utter_ask_a",
                          follow_up_action := some "fu_a" })],
    last_question := some "a" }

/-- C4 witness fixture: last_question slot a declares no follow-up. -/
def form4b : SimpleForm :=
  { baseForm with
    slot_dict := [("a", { ask_utt := some "utter_ask_a" })],
    last_question := some "a" }

/-- C5 fixture: chitchat intent joke while slot a was just asked. -/
def form5 : SimpleForm :=
  { baseForm with
    slot_dict := [("a", { ask_utt := some "utter_ask_a" })],
    required_slots := ["a"], current_required := ["a"],
    chitchat_dict := [("joke", "utter_joke")],
    last_question := some "a" }

/-- C5 fixture tracker. -/
def track5 : Tracker :=
  { slots := [("a", none)], latest_intent := "joke",
    latest_action_name := "action_listen" }

/-- C6 fixture: previously asked slot a and newly chosen slot b declare
distinct follow-up actions. -/
def form6 : SimpleForm :=
  { baseForm with
    slot_dict := [("a", { ask_utt := some "utter_ask_a",
                          follow_up_action := some "fu_a" }),
                  ("b", { ask_utt := some "utter_ask_b",
                          follow_up_action := some "fu_b" })],
    required_slots := ["b"], current_required := ["b"],
    last_question := some "a" }

/-- C6 fixture tracker: no interruption intent, slot b unfilled. -/
def track6 : Tracker :=
  { slots := [("b", none)], latest_intent := "hello",
    latest_action_name := "action_listen" }

/-- C7 fixture: stored current_required is a alone, but a rule on the
filled value of a would newly require c. -/
def form7 : SimpleForm :=
  { baseForm with
    required_slots := ["a"], current_required := ["a"],
    rules := some [(("a", some "x"), (some ["c"], none))] }

/-- C7 fixture tracker values: a filled with x, c absent. -/
def slots7 : SlotVals := [("a", some "x")]

/-- C8 fixture rules: the need list mentions zzz, declared nowhere. -/
def rules8 : RulesSpec := [("a", [(some "v", { need := some ["zzz"], lose := none })])]

/-- C8 fixture construction: slot_spec declares only a, no optional slots. -/
def built8 : Except String SimpleForm :=
  SimpleForm.init "f" [("a", { ask_utt := some "utter_ask_a" })] "finish"
    [] [] [] [] (some rules8) none

/-- C9 fixture: one leaf with both need and lose keys absent. -/
def rules9 : RulesSpec := [("a", [(some "v", {})])]

/-- C10 fixture rules for the witness. -/
def rules10 : RulesSpec := [("b", [(some "w", { need := some ["c"], lose := some ["a"] })])]

/-- C10 fixture construction with rules supplied. -/
def built10 : Except String SimpleForm :=
  SimpleForm.init "f" [("a", {})] "finish" [] [] [] [] (some rules10) none

/-! Helper lemmas shared by the claim theorems. -/

@[simp] theorem update_req_exit (f : SimpleForm) (s : SlotVals) :
    (f.update_requirements s).exit_dict = f.exit_dict := by
  unfold SimpleForm.update_requirements
  split <;> rfl

@[simp] theorem update_req_chitchat (f : SimpleForm) (s : SlotVals) :
    (f.update_requirements s).chitchat_dict = f.chitchat_dict := by
  unfold SimpleForm.update_requirements
  split <;> rfl

@[simp] theorem update_req_details (f : SimpleForm) (s : SlotVals) :
    (f.update_requirements s).details_intent = f.details_intent := by
  unfold SimpleForm.update_requirements
  split <;> rfl

@[simp] theorem update_req_slot_dict (f : SimpleForm) (s : SlotVals) :
    (f.update_requirements s).slot_dict = f.slot_dict := by
  unfold SimpleForm.update_requirements
  split <;> rfl

@[simp] theorem update_req_last_question (f : SimpleForm) (s : SlotVals) :
    (f.update_requirements s).last_question = f.last_question := by
  unfold SimpleForm.update_requirements
  split <;> rfl

@[simp] theorem update_req_queue (f : SimpleForm) (s : SlotVals) :
    (f.update_requirements s).queue = f.queue := by
  unfold SimpleForm.update_requirements
  split <;> rfl

@[simp] theorem update_req_finish (f : SimpleForm) (s : SlotVals) :
    (f.update_requirements s).finish_action = f.finish_action := by
  unfold SimpleForm.update_requirements
  split <;> rfl

theorem mem_collect_adds (tbl : RuleTable) (slots : SlotVals) (s : String) :
    s ∈ collect_adds tbl slots ↔ ∃ p ∈ slots, s ∈ addsOf tbl p := by
  induction slots with
  | nil => simp [collect_adds]
  | cons p rest ih => simp [collect_adds, ih, List.exists_mem_cons_iff]

theorem mem_collect_loses (tbl : RuleTable) (slots : SlotVals) (s : String) :
    s ∈ collect_loses tbl slots ↔ ∃ p ∈ slots, s ∈ losesOf tbl p := by
  induction slots with
  | nil => simp [collect_loses]
  | cons p rest ih => simp [collect_loses, ih, List.exists_mem_cons_iff]

/-! Claim C1. -/

/-- C1 (amended): for every recomputation over a compiled rule table, the
resulting required set is exactly (base required slots, union the need
lists of every tracker (slot, value) pair that keys the table) minus the
lose lists of those same pairs; in particular a slot that occurs in a
contributing lose list is absent from the result, so removal wins.  The
code applies no non-empty-value filter to the contributing pairs. -/
theorem update_requirements_set_formula (f : SimpleForm) (tbl : RuleTable)
    (slots : SlotVals) (s : String) (h : f.rules = some tbl) :
    (s ∈ (f.update_requirements slots).current_required ↔
      ((s ∈ f.required_slots ∨ ∃ p ∈ slots, s ∈ addsOf tbl p)
        ∧ ¬ ∃ p ∈ slots, s ∈ losesOf tbl p)) := by
  unfold SimpleForm.update_requirements
  rw [h]
  simp [List.mem_filter, List.mem_dedup, List.mem_append,
    mem_collect_adds, mem_collect_loses]

/-- C1 counterexample to the claim as stated: the tracker pair (a, None)
has an empty value, so by the claim it must not contribute, yet the code
adds b to the required set because the pair keys the rule table; the
spec-worded recomputation disagrees with the code on slot b. -/
theorem update_requirements_empty_value_counterexample :
    "b" ∈ (form1.update_requirements slots1).current_required ∧
      ¬ spec_recompute ["a"] rtable1 slots1 "b" := by
  decide

/-- C1 witness: the amended formula applied to the concrete fixture. -/
theorem update_requirements_set_formula_witness :
    ("b" ∈ (form1.update_requirements slots1).current_required ↔
      (("b" ∈ form1.required_slots ∨ ∃ p ∈ slots1, "b" ∈ addsOf rtable1 p)
        ∧ ¬ ∃ p ∈ slots1, "b" ∈ losesOf rtable1 p)) :=
  update_requirements_set_formula form1 rtable1 slots1 "b" rfl

/-! Claim C2. -/

/-- C2: when the queue front is an action entry, next_action_idx returns
its domain index and the whole resulting state is the old one with
exactly that entry removed: last_question, current_required and the order
of the remaining queue entries are untouched, and no decision logic
(intent reading, requirement recomputation, branch selection) is
reachable in that call. -/
theorem next_action_dequeues_front (f : SimpleForm) (t : Tracker) (dom : String → Nat)
    (choose : List String → String) (e : String) (rest : List QEntry)
    (h : f.queue = QEntry.act e :: rest) :
    f.next_action_idx t dom choose = some (dom e, { f with queue := rest }) := by
  unfold SimpleForm.next_action_idx
  rw [h]

/-- C2 witness: draining the concrete one-entry queue of form2. -/
theorem next_action_dequeues_front_witness :
    form2.next_action_idx track2 domLen chooseHead
      = some (domLen "utter_go", { form2 with queue := [] }) :=
  next_action_dequeues_front form2 track2 domLen chooseHead "utter_go" [] rfl

/-! Claim C3. -/

/-- C3: with an empty queue and a prefix-stripped intent that keys
exit_dict, the call returns the domain index of the mapped exit action and
leaves an empty queue behind; no hypothesis excludes the same intent from
chitchat_dict or details_intent, so the exit branch wins over both. -/
theorem exit_branch_priority (f : SimpleForm) (t : Tracker) (dom : String → Nat)
    (choose : List String → String) (a : String)
    (hq : f.queue = [])
    (hx : alookup f.exit_dict (stripPlan t.latest_intent) = some a) :
    f.next_action_idx t dom choose
      = some (dom a, { f.update_requirements t.slots with queue := [] }) := by
  have hx1 : alookup (f.update_requirements t.slots).exit_dict (stripPlan t.latest_intent)
      = some a := by rw [update_req_exit]; exact hx
  unfold SimpleForm.next_action_idx
  rw [hq]
  simp only [hx1, SimpleForm.drain]

/-- C3 witness: the intent bye is simultaneously an exit, chitchat and
clarification intent of form3, and the exit action is returned. -/
theorem exit_branch_priority_witness :
    form3.next_action_idx track3 domLen chooseHead
      = some (domLen "utter_goodbye", { form3.update_requirements track3.slots with queue := [] }) :=
  exit_branch_priority form3 track3 domLen chooseHead "utter_goodbye" rfl rfl

/-! Claim C4. -/

/-- C4 (amended): every successfully built question queue has length 2
when the slot stored in last_question declares no follow-up action and
length 3 when it does, never more; the listen action is always the second
element, and it is also the last element exactly in the no-follow-up
case — with a declared follow-up, the follow-up action is last. -/
theorem make_question_queue_shape (f : SimpleForm) (q : Option String) (qq : List String)
    (h : f.make_question_queue q = some qq) :
    (qq.length = 2 ∨ qq.length = 3) ∧ qq[1]? = some "action_listen" ∧
    ∃ lq ls, f.last_question = some lq ∧ alookup f.slot_dict lq = some ls ∧
      ((ls.follow_up_action = none ∧ qq.length = 2 ∧ qq.getLast? = some "action_listen")
        ∨ ∃ fu, ls.follow_up_action = some fu ∧ qq.length = 3 ∧ qq.getLast? = some fu) := by
  unfold SimpleForm.make_question_queue at h
  obtain ⟨qn, hqn, h⟩ := Option.bind_eq_some.mp h
  obtain ⟨qs, hqs, h⟩ := Option.bind_eq_some.mp h
  obtain ⟨ask, hask, h⟩ := Option.bind_eq_some.mp h
  obtain ⟨lq, hlq, h⟩ := Option.bind_eq_some.mp h
  obtain ⟨ls, hls, h⟩ := Option.bind_eq_some.mp h
  cases hfu : ls.follow_up_action with
  | some fu =>
    rw [hfu] at h
    cases h
    exact ⟨Or.inr rfl, rfl, lq, ls, hlq, hls, Or.inr ⟨fu, hfu, rfl, rfl⟩⟩
  | none =>
    rw [hfu] at h
    cases h
    exact ⟨Or.inl rfl, rfl, lq, ls, hlq, hls, Or.inl ⟨hfu, rfl, rfl⟩⟩

/-- C4 counterexample to the claim as stated: with a follow-up declared
for the last asked slot, the built queue is ask, listen, follow-up — its
last element is the follow-up action, not the listen action. -/
theorem make_question_queue_last_counterexample :
    form4.make_question_queue (some "a") = some ["utter_ask_a", "action_listen", "fu_a"] ∧
      ¬ (["utter_ask_a", "action_listen", "fu_a"].getLast? = some "action_listen") := by
  decide

/-- C4 witness: the amended shape applied to the no-follow-up fixture. -/
theorem make_question_queue_shape_witness :
    ((["utter_ask_a", "action_listen"].length = 2 ∨
        ["utter_ask_a", "action_listen"].length = 3) ∧
      (["utter_ask_a", "action_listen"] : List String)[1]? = some "action_listen" ∧
      ∃ lq ls, form4b.last_question = some lq ∧ alookup form4b.slot_dict lq = some ls ∧
        ((ls.follow_up_action = none ∧ ["utter_ask_a", "action_listen"].length = 2 ∧
            ["utter_ask_a", "action_listen"].getLast? = some "action_listen")
          ∨ ∃ fu, ls.follow_up_action = some fu ∧ ["utter_ask_a", "action_listen"].length = 3 ∧
              ["utter_ask_a", "action_listen"].getLast? = some fu)) :=
  make_question_queue_shape form4b (some "a") ["utter_ask_a", "action_listen"] rfl

/-! Claim C5. -/

/-- C5 evaluation at the failing input: on the chitchat intent joke the
call does return the domain index of the mapped chitchat action, but the
queue left behind is a single nested list element — the question queue is
appended as one entry, not flattened into individual action identifiers —
and the very next decision call fails, because the nested entry reaches
index_for_action, which only accepts an action name. -/
theorem chitchat_queue_nested_bug :
    retIdx (form5.next_action_idx track5 domLen chooseHead) = some (domLen "utter_joke") ∧
    retQueue (form5.next_action_idx track5 domLen chooseHead)
      = some [QEntry.nested ["utter_ask_a", "action_listen"]] ∧
    ((form5.next_action_idx track5 domLen chooseHead).bind
        (fun p => p.2.next_action_idx track5 domLen chooseHead)) = none := by
  decide

/-! Claim C6. -/

/-- C6 (amended): in the default branch, last_question is reassigned to
the newly chosen slot before the question queue is built, so the follow-up
action appended (when one is declared) is the one declared for the newly
chosen slot, not the one declared for the previously asked slot; the
resulting state carries the chosen slot in last_question and the queue
listen entry followed by that slot's follow-up. -/
theorem default_branch_follow_up (f : SimpleForm) (t : Tracker) (dom : String → Nat)
    (choose : List String → String) (c : String) (cs : SlotSpec) (ask fu : String)
    (hq : f.queue = [])
    (hexit : alookup f.exit_dict (stripPlan t.latest_intent) = none)
    (hchit : ((alookup f.chitchat_dict (stripPlan t.latest_intent)).isSome
        && ! (f.chitchat_dict.map Prod.snd).contains t.latest_action_name) = false)
    (hdet : (f.details_intent.contains (stripPlan t.latest_intent)
        && ! hasSubstr t.latest_action_name.toList "utter_explain".toList) = false)
    (hstill : ((f.update_requirements t.slots).check_unfilled_slots t.slots).isEmpty = false)
    (hc : choose ((f.update_requirements t.slots).check_unfilled_slots t.slots) = c)
    (hcs : alookup f.slot_dict c = some cs)
    (hask : cs.ask_utt = some ask)
    (hfu : cs.follow_up_action = some fu) :
    f.next_action_idx t dom choose
      = some (dom ask,
          { f.update_requirements t.slots with
              last_question := some c,
              queue := [QEntry.act "action_listen", QEntry.act fu] }) := by
  have hexit1 : alookup (f.update_requirements t.slots).exit_dict (stripPlan t.latest_intent)
      = none := by rw [update_req_exit]; exact hexit
  have hcs1 : alookup (f.update_requirements t.slots).slot_dict c = some cs := by
    rw [update_req_slot_dict]; exact hcs
  unfold SimpleForm.next_action_idx
  rw [hq]
  simp only [hexit1, update_req_chitchat, update_req_details, hchit, hdet,
    Bool.false_eq_true, if_false, hstill, hc, SimpleForm.make_question_queue,
    update_req_slot_dict, hcs1, hcs, hask, hfu, Option.bind_eq_bind, Option.some_bind,
    Option.pure_def, List.map_cons, List.map_nil, SimpleForm.drain]

/-- C6 counterexample to the claim as stated: the previously asked slot a
declares follow-up fu_a and the newly chosen slot b declares fu_b; the
queue left behind carries fu_b, the newly chosen slot's follow-up, and
last_question has already moved to b. -/
theorem default_branch_follow_up_counterexample :
    retQueue (form6.next_action_idx track6 domLen chooseHead)
      = some [QEntry.act "action_listen", QEntry.act "fu_b"] ∧
    retLastQ (form6.next_action_idx track6 domLen chooseHead) = some (some "b") := by
  decide

/-- C6 witness: the amended statement applied to the concrete fixture. -/
theorem default_branch_follow_up_witness :
    form6.next_action_idx track6 domLen chooseHead
      = some (domLen "utter_ask_b",
          { form6.update_requirements track6.slots with
              last_question := some "b",
              queue := [QEntry.act "action_listen", QEntry.act "fu_b"] }) :=
  default_branch_follow_up form6 track6 domLen chooseHead "b"
    { ask_utt := some "utter_ask_b", follow_up_action := some "fu_b" }
    "utter_ask_b" "fu_b" rfl rfl rfl rfl rfl rfl rfl rfl rfl

/-! Claim C7. -/

theorem check_unfilled_empty_iff (f : SimpleForm) (slots : SlotVals) :
    f.check_unfilled_slots slots = [] ↔
      ∀ s ∈ f.current_required, ∃ v, (s, some v) ∈ slots := by
  unfold SimpleForm.check_unfilled_slots
  rw [List.filter_eq_nil_iff]
  constructor
  · intro h s hs
    have h2 := h s (List.mem_dedup.mpr hs)
    simp only [decide_eq_true_eq, not_not] at h2
    rcases List.mem_map.mp h2 with ⟨p, hp, hps⟩
    rcases List.mem_filter.mp hp with ⟨hmem, hval⟩
    simp only [decide_eq_true_eq] at hval
    rcases p with ⟨a, ov⟩
    cases ov with
    | none => exact absurd rfl hval
    | some v =>
      cases hps
      exact ⟨v, hmem⟩
  · intro h s hs
    rcases h s (List.mem_dedup.mp hs) with ⟨v, hv⟩
    simp only [decide_eq_true_eq, not_not]
    exact List.mem_map.mpr ⟨(s, some v), List.mem_filter.mpr ⟨hv, by simp⟩, rfl⟩

/-- C7 (amended): the deactivation action reports completion exactly when
every slot of the stored current_required set — the value left by the most
recent decision call, not a fresh recomputation from the tracker's current
slot values — has a non-null value; the check is a pure read that changes
neither the plan instance nor the tracker, so repeated calls without an
intervening slot mutation agree. -/
theorem plan_complete_reports_stored_required (f : SimpleForm) (slots : SlotVals) :
    (PlanComplete_run f slots
        = [PlanEvent.endPlan, PlanEvent.slotSetBool "active_plan" false,
           PlanEvent.slotSetBool "plan_complete" true]
      ↔ ∀ s ∈ f.current_required, ∃ v, (s, some v) ∈ slots) := by
  rw [← check_unfilled_empty_iff, ← List.isEmpty_iff]
  unfold PlanComplete_run
  simp

/-- C7 counterexample to the claim as stated: form7 is reported complete
because its stored current_required is filled, although recomputing the
required set from the tracker's current slot values through the rule
table leaves slot c required and unfilled — the check does not recompute. -/
theorem plan_complete_no_recompute_counterexample :
    PlanComplete_run form7 slots7
      = [PlanEvent.endPlan, PlanEvent.slotSetBool "active_plan" false,
         PlanEvent.slotSetBool "plan_complete" true] ∧
    (form7.update_requirements slots7).check_unfilled_slots slots7 = ["c"] := by
  decide

/-- C7 witness: the amended completion criterion at a concrete filled
tracker. -/
theorem plan_complete_reports_stored_required_witness :
    PlanComplete_run form2 [("a", some "x")]
      = [PlanEvent.endPlan, PlanEvent.slotSetBool "active_plan" false,
         PlanEvent.slotSetBool "plan_complete" true] :=
  (plan_complete_reports_stored_required form2 [("a", some "x")]).mpr
    (by
      intro s hs
      simp only [form2, baseForm, List.mem_singleton] at hs
      subst hs
      exact ⟨"x", by simp⟩)

/-! Claim C8. -/

/-- C8 counterexample: a plan definition whose rules mention slot zzz,
declared neither in slot_spec nor in optional_slots, is accepted by the
constructor — no MalformedRule error exists — the violating entry is
compiled into the rule table, and it takes effect at runtime by adding
zzz to the required set once the rule fires. -/
theorem rule_validation_counterexample :
    rulesOf built8 = some [(("a", some "v"), (some ["zzz"], none))] ∧
    "zzz" ∈ ((formOf built8).update_requirements [("a", some "v")]).current_required := by
  decide

/-- C8 (amended): no load-time validation of rule slot names is
performed: construction with any supplied rules mapping succeeds and
compiles exactly the given entries into the rule table, undeclared slot
names included, so such entries are live at runtime like any others. -/
theorem init_accepts_any_rules (name : String) (sd : List (String × SlotSpec))
    (fa : String) (os : List String) (ed cd : List (String × String))
    (di : List String) (r : RulesSpec) (subj : Option String) :
    rulesOf (SimpleForm.init name sd fa os ed cd di (some r) subj)
      = some (process_rules r) := rfl

/-! Claim C9. -/

/-- C9 counterexample to the claim as stated: a leaf with both keys
absent compiles to the pair (None, None), not to empty lists — None is
not the empty list. -/
theorem process_rules_absent_defaults_counterexample :
    process_rules rules9 = [(("a", some "v"), (none, none))] ∧
      (none : Option (List String)) ≠ some [] := by
  decide

/-- C9 (amended): the rule-table compiler is a pure deterministic
function whose entries are exactly the (slot, value) leaves of the nested
specification, each mapped to the pair of its optional need and lose
lists as given — an absent key yields None (not the empty list); the
requirement resolver's None-guards make None act as empty downstream. -/
theorem process_rules_entries (rules : RulesSpec) (s : String) (v : Option String)
    (nl : Option (List String) × Option (List String)) :
    (((s, v), nl) ∈ process_rules rules ↔
      ∃ values leaf, (s, values) ∈ rules ∧ (v, leaf) ∈ values
        ∧ nl = (leaf.need, leaf.lose)) := by
  induction rules with
  | nil => simp [process_rules]
  | cons sv rest ih =>
    rcases sv with ⟨slot, values⟩
    constructor
    · intro h
      rcases List.mem_append.mp h with h1 | h2
      · rcases List.mem_map.mp h1 with ⟨⟨pv, leaf⟩, hmem, heq⟩
        cases heq
        exact ⟨values, leaf, List.mem_cons_self _ _, hmem, rfl⟩
      · rcases ih.mp h2 with ⟨vs, leaf, hmem, h3, h4⟩
        exact ⟨vs, leaf, List.mem_cons_of_mem _ hmem, h3, h4⟩
    · rintro ⟨vs, leaf, hmem, h3, h4⟩
      rcases List.mem_cons.mp hmem with heq | hmem2
      · cases heq
        subst h4
        exact List.mem_append.mpr (Or.inl (List.mem_map.mpr ⟨(v, leaf), h3, rfl⟩))
      · exact List.mem_append.mpr (Or.inr (ih.mpr ⟨vs, leaf, hmem2, h3, h4⟩))

/-- C9 witness: the characterization applied to the concrete leaf with
both keys absent. -/
theorem process_rules_entries_witness :
    ((("a", some "v"), ((none : Option (List String)), (none : Option (List String))))
        ∈ process_rules rules9 ↔
      ∃ values leaf, ("a", values) ∈ rules9 ∧ ((some "v" : Option String), leaf) ∈ values
        ∧ ((none : Option (List String)), (none : Option (List String)))
            = (leaf.need, leaf.lose)) :=
  process_rules_entries rules9 "a" (some "v") (none, none)

/-! Claim C10. -/

/-- C10: constructing without a rules mapping (the declared parameter
default None) always fails, because rule compilation iterates over the
rules argument unconditionally; and every successful construction stores
the compiled rule table, never None, so the None-guard at the top of the
requirement recomputation is unreachable for constructed instances. -/
theorem init_requires_rules (name : String) (sd : List (String × SlotSpec))
    (fa : String) (os : List String) (ed cd : List (String × String))
    (di : List String) (subj : Option String) :
    SimpleForm.init name sd fa os ed cd di none subj
        = Except.error "AttributeError: NoneType has no attribute items" ∧
    ∀ r, rulesOf (SimpleForm.init name sd fa os ed cd di (some r) subj)
        = some (process_rules r) :=
  ⟨rfl, fun _ => rfl⟩

end RasaPlans
